import Mathlib

/-!
Verification of the `mesheryctl perf apply` workflow
(`mesheryctl/internal/cli/root/perf/apply.go`).

The Go command is embedded shallowly: the command-scoped mutable string
variables become fields of `TestSpec`; the external world (parsed file,
fetched profiles, interactive answers, HTTP responses) is a `World`
record; returned errors are `Outcome.err`, a Go runtime panic (out of
range slice/string indexing) is `Outcome.crash`; the outbound HTTP
requests the command issues are collected in a `List NetAction`.
-/

/-- The distinct error kinds returned by `apply.go` (each constructor
corresponds to one `Err...` constructor or wrapped error in the source). -/
inductive PerfError where
  | mesheryConfig
  | readFilepath
  | failUnmarshalFile
  | invalidTestConfigFile
  | noProfileName
  | noProfileFound
  | fetchFail
  | promptFail
  | noTestURL
  | notValidURL
  | convertConcurrent
  | convertQPS
  | failRequest
  | failReqStatus (code : Nat)
  | failUnmarshal
  | bodyRead
  | failTestRun
deriving DecidableEq, Repr

/-- Result of a step of the command: a normal value, a returned error,
or a Go runtime panic (out-of-range indexing). -/
inductive Outcome (α : Type) where
  | ok : α → Outcome α
  | err : PerfError → Outcome α
  | crash : Outcome α
deriving DecidableEq, Repr

/-- One client block of the SMP test-configuration file
(`models.PerformanceTestConfigFile` → `Config.Clients[i]`). -/
structure TestClient where
  endpointUrls : List String
  rps : Int
  connections : Int
  loadGenerator : String
deriving DecidableEq, Repr

/-- The top-level `config` section of the test-configuration file. -/
structure TestConfig where
  name : String
  duration : String
  clients : List TestClient
deriving DecidableEq, Repr

/-- The `serviceMesh` descriptor of the test-configuration file; `type`
is the SMP mesh-type enum value (an `int32` in the source). -/
structure ServiceMeshDesc where
  type : Int
deriving DecidableEq, Repr

/-- `models.PerformanceTestConfigFile`: both top-level sections are
pointers in Go, hence `Option` here; `none` is Go `nil`. -/
structure PerformanceTestConfigFile where
  config : Option TestConfig
  serviceMesh : Option ServiceMeshDesc
deriving DecidableEq, Repr

/-- A remote performance profile (`models.PerformanceProfile` as read by
`apply.go`: ID, Name, Endpoints, LoadGenerators, ConcurrentRequest, QPS,
Duration, ServiceMesh). -/
structure PerformanceProfile where
  id : String
  name : String
  endpoints : List String
  loadGenerators : List String
  concurrentRequest : Int
  qps : Int
  duration : String
  serviceMesh : String
deriving DecidableEq, Repr

/-- The command-scoped mutable variables of `apply.go` gathered into one
record (profileName, testName, testURL, testMesh, qps,
concurrentRequests, testDuration, loadGenerator, profileID). -/
structure TestSpec where
  profileName : String
  testName : String
  testURL : String
  testMesh : String
  qps : String
  concurrentRequests : String
  testDuration : String
  loadGenerator : String
  profileID : String
deriving DecidableEq, Repr

/-- JSON body of the profile-creation POST built in
`createPerformanceProfile` (the four always-empty placeholder fields of
the Go map are constants and carried as such). -/
structure CreateBody where
  concurrent_request : Int
  duration : String
  endpoints : List String
  load_generators : List String
  name : String
  qps : Int
  service_mesh : String
  request_body : String := ""
  request_cookies : String := ""
  request_headers : String := ""
  content_type : String := ""
deriving DecidableEq, Repr

/-- Query parameters of the test-run GET request; `mesh` is added only
when the mesh name is non-empty. -/
structure RunQuery where
  name : String
  loadGenerator : String
  c : String
  url : String
  qps : String
  dur : String
  t : String
  mesh : Option String
deriving DecidableEq, Repr

/-- The outbound HTTP requests issued by one invocation. -/
inductive NetAction where
  | fetchProfiles (profileName : String)
  | createProfile (body : CreateBody)
  | runTest (q : RunQuery)
deriving DecidableEq, Repr

/-- Result of reading and YAML-unmarshalling the `--file` argument
(`os.ReadFile` / `yaml.Unmarshal` in the source). -/
inductive FileInput where
  | readError
  | parseError
  | parsed (f : PerformanceTestConfigFile)
deriving DecidableEq, Repr

/-- The command-line inputs: flag values (empty string means the flag was
not supplied), the `--file` argument (`none` means `filePath == ""`),
and the positional arguments. -/
structure CmdInput where
  testURL : String
  testName : String
  testMesh : String
  qps : String
  concurrentRequests : String
  testDuration : String
  loadGenerator : String
  file : Option FileInput
  args : List String
deriving Repr

/-- The external world consumed by one invocation: the SMP mesh-type
display-name map, the URL validator (`govalidator.IsURL`), the random
name generator's output, the profile-fetch result (`none` = fetch
error), the interactive answers, and the two HTTP responses. -/
structure World where
  mesheryConfigOk : Bool
  meshTypeName : Int → String
  isURL : String → Bool
  randomName : String
  fetchResult : Option (List PerformanceProfile)
  silentFlag : Bool
  userConfirm : Bool
  userIndex : Option Nat
  createTransportOk : Bool
  createStatus : Nat
  createReadOk : Bool
  createDecoded : Option (String × String)
  runTransportOk : Bool
  runIsHTML : Bool
  runStatus : Nat
  runBodyOk : Bool

/-- Initial `TestSpec` holding the flag values (the state of the global
variables after flag parsing, before `RunE` runs). -/
def initSpec (c : CmdInput) : TestSpec :=
  { profileName := ""
    testName := c.testName
    testURL := c.testURL
    testMesh := c.testMesh
    qps := c.qps
    concurrentRequests := c.concurrentRequests
    testDuration := c.testDuration
    loadGenerator := c.loadGenerator
    profileID := "" }

/-- File merge, `apply.go` lines 94–127: validation of the two top-level
sections, unconditional read of `Config.Clients[0]` (a Go panic when the
clients slice is empty), then per-field "keep the flag if non-empty,
else take the file's value"; `EndpointUrls[0]` is read only when no URL
flag was given and panics when that list is empty. -/
def mergeFile (meshTypeName : Int → String) (tf : PerformanceTestConfigFile)
    (s : TestSpec) : Outcome TestSpec :=
  match tf.config, tf.serviceMesh with
  | none, _ => .err .invalidTestConfigFile
  | some _, none => .err .invalidTestConfigFile
  | some cfg, some sm =>
    match cfg.clients with
    | [] => .crash
    | tc :: _ =>
      let urlRes : Outcome String :=
        if s.testURL = "" then
          match tc.endpointUrls with
          | [] => .crash
          | u :: _ => .ok u
        else .ok s.testURL
      match urlRes with
      | .err e => .err e
      | .crash => .crash
      | .ok url =>
        .ok { s with
          testName := if s.testName = "" then cfg.name else s.testName
          testURL := url
          testMesh := if s.testMesh = "" then meshTypeName sm.type else s.testMesh
          qps := if s.qps = "" then toString tc.rps else s.qps
          concurrentRequests :=
            if s.concurrentRequests = "" then toString tc.connections
            else s.concurrentRequests
          testDuration := if s.testDuration = "" then cfg.duration else s.testDuration
          loadGenerator := if s.loadGenerator = "" then tc.loadGenerator else s.loadGenerator }

/-- The `if filePath != ""` block, lines 80–128: no file means no change;
a read or unmarshal failure is its own error; otherwise merge. -/
def fileStep (meshTypeName : Int → String) (fi : Option FileInput)
    (s : TestSpec) : Outcome TestSpec :=
  match fi with
  | none => .ok s
  | some .readError => .err .readFilepath
  | some .parseError => .err .failUnmarshalFile
  | some (.parsed tf) => mergeFile meshTypeName tf s

/-- Lines 131–135: generate a random test name when none was supplied. -/
def ensureTestName (rand : String) (s : TestSpec) : TestSpec :=
  if s.testName = "" then { s with testName := rand } else s

/-- `strings.ReplaceAll arg " " "%20"` on the character list. -/
def replaceSpaces : List Char → List Char
  | [] => []
  | ch :: rest =>
    if ch = ' ' then '%' :: '2' :: '0' :: replaceSpaces rest
    else ch :: replaceSpaces rest

/-- Lines 143–147: replace spaces in each argument and join the
arguments with the literal `%20`. -/
def profileNameOfArgs : List String → String
  | [] => ""
  | [a] => String.mk (replaceSpaces a.data)
  | a :: rest => String.mk (replaceSpaces a.data) ++ "%20" ++ profileNameOfArgs rest

/-- Accumulator pass of `strconv.Atoi`'s digit loop. -/
def digitsToNat : List Char → Nat → Option Nat
  | [], acc => some acc
  | ch :: rest, acc =>
    if '0' ≤ ch ∧ ch ≤ '9' then
      digitsToNat rest (acc * 10 + (ch.toNat - '0'.toNat))
    else none

/-- `strconv.Atoi`: optional sign then decimal digits; empty input or a
bare sign or any non-digit is an error (64-bit overflow is not modelled;
the inputs this command converts are short). -/
def goAtoi (s : String) : Option Int :=
  match s.data with
  | [] => none
  | '+' :: rest =>
    match rest with
    | [] => none
    | _ => (digitsToNat rest 0).map Int.ofNat
  | '-' :: rest =>
    match rest with
    | [] => none
    | _ => (digitsToNat rest 0).map (fun n => -(Int.ofNat n))
  | cs => (digitsToNat cs 0).map Int.ofNat

/-- Lines 344–364: classification of the profile-creation response:
transport failure, non-200 status (carrying the code), body-read
failure, unmarshal failure; on success the returned identifier and name
overwrite the spec's `profileID`/`profileName`. -/
def classifyCreateResponse (w : World) (s1 : TestSpec) : Outcome TestSpec :=
  if !w.createTransportOk then .err .failRequest
  else if w.createStatus ≠ 200 then .err (.failReqStatus w.createStatus)
  else if !w.createReadOk then .err .bodyRead
  else
    match w.createDecoded with
    | none => .err .failUnmarshal
    | some (pid, pname) => .ok { s1 with profileID := pid, profileName := pname }

/-- Lines 293–311: default every still-empty field of the spec —
service mesh "None", QPS "0", concurrent-requests "1", duration "30s",
load generator "fortio". -/
def applyCreateDefaults (s : TestSpec) : TestSpec :=
  { s with
    testMesh := if s.testMesh = "" then "None" else s.testMesh
    qps := if s.qps = "" then "0" else s.qps
    concurrentRequests :=
      if s.concurrentRequests = "" then "1" else s.concurrentRequests
    testDuration := if s.testDuration = "" then "30s" else s.testDuration
    loadGenerator := if s.loadGenerator = "" then "fortio" else s.loadGenerator }

/-- Lines 313–333: convert concurrent-requests and QPS with
`strconv.Atoi` (each failure its own error) and assemble the creation
request body. -/
def buildCreateBody (s1 : TestSpec) : Outcome CreateBody :=
  match goAtoi s1.concurrentRequests with
  | none => .err .convertConcurrent
  | some convReq =>
    match goAtoi s1.qps with
    | none => .err .convertQPS
    | some convQPS =>
      .ok { concurrent_request := convReq
            duration := s1.testDuration
            endpoints := [s1.testURL]
            load_generators := [s1.loadGenerator]
            name := s1.profileName
            qps := convQPS
            service_mesh := s1.testMesh }

/-- `createPerformanceProfile`, lines 276–368: require profile name and
a valid test URL, default the still-empty fields, build and POST the
creation body, then classify the response. The defaults mutate the
command-scoped variables and therefore persist into the returned spec. -/
def createPerformanceProfile (w : World) (s : TestSpec) :
    Outcome TestSpec × List NetAction :=
  if s.profileName = "" then (.err .noProfileName, [])
  else if s.testURL = "" then (.err .noTestURL, [])
  else if !(w.isURL s.testURL) then (.err .notValidURL, [])
  else
    match buildCreateBody (applyCreateDefaults s) with
    | .err e => (.err e, [])
    | .crash => (.crash, [])
    | .ok body =>
      (classifyCreateResponse w (applyCreateDefaults s),
       [NetAction.createProfile body])

/-- Lines 189–191: take the test URL from the profile's first endpoint
when none is set yet; `Endpoints[0]` on an empty list is a Go panic. -/
def adoptURL (prof : PerformanceProfile) (s1 : TestSpec) : Outcome String :=
  if s1.testURL = "" then
    match prof.endpoints with
    | [] => .crash
    | u :: _ => .ok u
  else .ok s1.testURL

/-- Lines 195–202: overwrite name, load generator (first entry,
`LoadGenerators[0]` on an empty list is a Go panic), concurrent-requests,
QPS, duration and service-mesh name from the profile. -/
def overwriteFromProfile (prof : PerformanceProfile) (s2 : TestSpec) :
    Outcome TestSpec :=
  match prof.loadGenerators with
  | [] => .crash
  | lg :: _ =>
    .ok { s2 with
      profileName := prof.name
      loadGenerator := lg
      concurrentRequests := toString prof.concurrentRequest
      qps := toString prof.qps
      testDuration := prof.duration
      testMesh := prof.serviceMesh }

/-- Lines 177–202 applied to the matched (or selected) profile: adopt
its identifier, take the test URL from it when none is set, and only
when no `--file` was given overwrite the test parameters from it. -/
def adoptProfile (fileAbsent : Bool) (prof : PerformanceProfile)
    (s : TestSpec) : Outcome TestSpec :=
  match adoptURL prof { s with profileID := prof.id } with
  | .err e => .err e
  | .crash => .crash
  | .ok url =>
    if fileAbsent then
      overwriteFromProfile prof { s with profileID := prof.id, testURL := url }
    else .ok { s with profileID := prof.id, testURL := url }

/-- Lines 177–186: a single match uses index 0; with several matches the
user must pick an index (a prompt failure propagates). -/
def pickProfileIndex (w : World) (ps : List PerformanceProfile) : Outcome Nat :=
  match ps with
  | [] => .ok 0
  | _ :: _ =>
    match w.userIndex with
    | none => .err .promptFail
    | some i => .ok i

/-- Profile resolution, lines 151–203: classify the fetch result as
none / one / many. Zero matches: the silent flag stands in for a
confirmation, otherwise the user is asked; confirmation delegates to
`createPerformanceProfile`, declining is the no-profile-found error.
One match: use the head profile; many: the user picks an index (an
out-of-range pick is the Go panic of `profiles[index]`); the picked
profile is adopted by `adoptProfile`. -/
def resolveStep (w : World) (fileAbsent : Bool) (s : TestSpec) :
    Outcome TestSpec × List NetAction :=
  match w.fetchResult with
  | none => (.err .fetchFail, [])
  | some [] =>
    if (if w.silentFlag then true else w.userConfirm) then
      createPerformanceProfile w s
    else (.err .noProfileFound, [])
  | some (p :: ps) =>
    match pickProfileIndex w ps with
    | .err e => (.err e, [])
    | .crash => (.crash, [])
    | .ok i =>
      match (p :: ps).get? i with
      | none => (.crash, [])
      | some prof => (adoptProfile fileAbsent prof s, [])

/-- Lines 230–233: split the duration into `t` (all characters but the
last) and `dur` (the last character); with an empty duration the
indexing `testDuration[durLen-1]` is out of range, a Go panic. -/
def buildRunQuery (s : TestSpec) : Outcome RunQuery :=
  match s.testDuration.data.getLast? with
  | none => .crash
  | some u =>
    .ok { name := s.testName
          loadGenerator := s.loadGenerator
          c := s.concurrentRequests
          url := s.testURL
          qps := s.qps
          dur := String.mk [u]
          t := String.mk s.testDuration.data.dropLast
          mesh := if s.testMesh = "" then none else some s.testMesh }

/-- Lines 242–257: transport failure, then the HTML content-type guard,
then the status-code check, then the body read. -/
def classifyRunResponse (w : World) : Outcome Unit :=
  if !w.runTransportOk then .err .failRequest
  else if w.runIsHTML then .err .failTestRun
  else if w.runStatus ≠ 200 then .err .failTestRun
  else if !w.runBodyOk then .err .bodyRead
  else .ok ()

/-- Lines 205–261: the empty-URL check, the syntactic URL check, the
run-query construction and the GET, then response classification. -/
def finishRun (w : World) (s : TestSpec) : Outcome Unit × List NetAction :=
  if s.testURL = "" then (.err .noTestURL, [])
  else if !(w.isURL s.testURL) then (.err .notValidURL, [])
  else
    match buildRunQuery s with
    | .err e => (.err e, [])
    | .crash => (.crash, [])
    | .ok q => (classifyRunResponse w, [NetAction.runTest q])

/-- The whole of `applyCmd.RunE`: configuration load, file merge, random
test name, positional-argument check, profile-name construction, fetch,
resolution, and the final run request. On success the returned spec is
the final state of the command-scoped variables. -/
def applyRunE (w : World) (c : CmdInput) : Outcome TestSpec × List NetAction :=
  if !w.mesheryConfigOk then (.err .mesheryConfig, [])
  else
    match fileStep w.meshTypeName c.file (initSpec c) with
    | .err e => (.err e, [])
    | .crash => (.crash, [])
    | .ok s0 =>
      let s1 := ensureTestName w.randomName s0
      if c.args = [] then (.err .noProfileName, [])
      else
        let pn := profileNameOfArgs c.args
        let s2 : TestSpec := { s1 with profileName := pn }
        let fetchAct := NetAction.fetchProfiles pn
        match resolveStep w c.file.isNone s2 with
        | (.err e, acts) => (.err e, fetchAct :: acts)
        | (.crash, acts) => (.crash, fetchAct :: acts)
        | (.ok s3, acts) =>
          match finishRun w s3 with
          | (.ok _, acts2) => (.ok s3, fetchAct :: (acts ++ acts2))
          | (.err e, acts2) => (.err e, fetchAct :: (acts ++ acts2))
          | (.crash, acts2) => (.crash, fetchAct :: (acts ++ acts2))

/-! Concrete sample data used by the witness theorems. -/

/-- A stored remote profile whose values differ from every flag value
used in the samples below. -/
def sampleProfile : PerformanceProfile :=
  { id := "0001"
    name := "perf-test"
    endpoints := ["https://profile.example"]
    loadGenerators := ["wrk2"]
    concurrentRequest := 5
    qps := 7
    duration := "15s"
    serviceMesh := "istio" }

/-- A benign external world: one matching profile, every response a
plain 200, a validator that accepts every non-empty URL. -/
def sampleWorld : World :=
  { mesheryConfigOk := true
    meshTypeName := fun _ => "istio"
    isURL := fun u => !(u == "")
    randomName := "qwertyui"
    fetchResult := some [sampleProfile]
    silentFlag := false
    userConfirm := false
    userIndex := none
    createTransportOk := true
    createStatus := 200
    createReadOk := true
    createDecoded := some ("0002", "created-profile")
    runTransportOk := true
    runIsHTML := false
    runStatus := 200
    runBodyOk := true }

/-- A spec in which the user supplied a flag for every field. -/
def flaggedSpec : TestSpec :=
  { profileName := "perf-test"
    testName := "mytest"
    testURL := "https://flag.example"
    testMesh := "linkerd"
    qps := "100"
    concurrentRequests := "9"
    testDuration := "1h"
    loadGenerator := "fortio"
    profileID := "" }

/-- A spec carrying only a profile name and a test URL. -/
def minimalSpec : TestSpec :=
  { profileName := "perf-test"
    testName := ""
    testURL := "https://flag.example"
    testMesh := ""
    qps := ""
    concurrentRequests := ""
    testDuration := ""
    loadGenerator := ""
    profileID := "" }

/-- A test-configuration file with duration `"2m"` and one client. -/
def file2m : PerformanceTestConfigFile :=
  { config := some
      { name := "smp-test"
        duration := "2m"
        clients := [{ endpointUrls := ["https://file.example"]
                      rps := 10
                      connections := 4
                      loadGenerator := "fortio" }] }
    serviceMesh := some { type := 3 } }

/-- Command line with no flags, `--file` pointing at `file2m`, and one
positional argument. -/
def input2m : CmdInput :=
  { testURL := ""
    testName := ""
    testMesh := ""
    qps := ""
    concurrentRequests := ""
    testDuration := ""
    loadGenerator := ""
    file := some (.parsed file2m)
    args := ["p"] }

/-- Command line with no flags, no file, one positional argument. -/
def bareInput : CmdInput :=
  { testURL := ""
    testName := ""
    testMesh := ""
    qps := ""
    concurrentRequests := ""
    testDuration := ""
    loadGenerator := ""
    file := none
    args := ["stored"] }

/-- A stored profile whose duration string is empty. -/
def emptyDurationProfile : PerformanceProfile :=
  { id := "0003"
    name := "stored"
    endpoints := ["https://profile.example"]
    loadGenerators := ["fortio"]
    concurrentRequest := 2
    qps := 10
    duration := ""
    serviceMesh := "istio" }

/-! Helper lemmas. -/

/-- A non-empty string has a non-empty character list. -/
theorem string_data_ne_nil {s : String} (h : s ≠ "") : s.data ≠ [] := by
  intro hd
  exact h (String.ext (by rw [hd]))

/-- `strconv.Atoi "1"` evaluates to `1`. -/
theorem goAtoi_one : goAtoi "1" = some 1 := by decide

/-- `strconv.Atoi "0"` evaluates to `0`. -/
theorem goAtoi_zero : goAtoi "0" = some 0 := by decide

/-- C3: for every non-empty duration string reaching run-request
construction, the built query's `t` is the duration minus its last
character and `dur` is exactly that last character — `t ++ dur`
reassembles the duration and `dur` has length one — with no validation
of the unit character; moreover the whole pipeline run on a
configuration file with duration `"2m"` and no duration flag emits a run
request with `t = "2"` and `dur = "m"`. -/
theorem duration_decomposition :
    (∀ s : TestSpec, s.testDuration ≠ "" →
      ∃ q, buildRunQuery s = .ok q ∧
        q.t ++ q.dur = s.testDuration ∧
        q.dur.length = 1 ∧
        q.t.length + 1 = s.testDuration.length) ∧
    (∃ s2 q, applyRunE sampleWorld input2m =
        (.ok s2, [NetAction.fetchProfiles "p", NetAction.runTest q]) ∧
      q.t = "2" ∧ q.dur = "m") := by
  constructor
  · intro s hd
    have hdata : s.testDuration.data ≠ [] := string_data_ne_nil hd
    obtain ⟨l, a, h⟩ := (List.eq_nil_or_concat s.testDuration.data).resolve_left hdata
    rw [List.concat_eq_append] at h
    refine ⟨{ name := s.testName
              loadGenerator := s.loadGenerator
              c := s.concurrentRequests
              url := s.testURL
              qps := s.qps
              dur := String.mk [a]
              t := String.mk l
              mesh := if s.testMesh = "" then none else some s.testMesh }, ?_, ?_, ?_, ?_⟩
    · unfold buildRunQuery
      rw [h, List.getLast?_concat]
      simp [h, List.dropLast_concat]
    · apply String.ext
      show l ++ [a] = s.testDuration.data
      rw [h]
    · rfl
    · show l.length + 1 = s.testDuration.data.length
      rw [h]
      simp
  · exact ⟨_, _, rfl, rfl, rfl⟩

/-- C3 witness: the universal part instantiated at the flag-supplied
spec, whose duration is `"1h"`. -/
theorem duration_decomposition_witness :
    ∃ q, buildRunQuery flaggedSpec = .ok q ∧
      q.t ++ q.dur = flaggedSpec.testDuration ∧
      q.dur.length = 1 ∧
      q.t.length + 1 = flaggedSpec.testDuration.length :=
  duration_decomposition.1 flaggedSpec (by decide)

/-- C6: with a response in hand (the transport succeeded), an HTML
content type yields the failed-test-run error regardless of status, a
non-200 status also yields it, and a successful classification forces
status 200 with a non-HTML content type. -/
theorem run_response_classification (w : World) (ht : w.runTransportOk = true) :
    (w.runIsHTML = true → classifyRunResponse w = .err .failTestRun) ∧
    (w.runStatus ≠ 200 → classifyRunResponse w = .err .failTestRun) ∧
    (classifyRunResponse w = .ok () → w.runStatus = 200 ∧ w.runIsHTML = false) := by
  unfold classifyRunResponse
  rw [ht]
  refine ⟨?_, ?_, ?_⟩
  · intro h
    simp [h]
  · intro h
    by_cases hh : w.runIsHTML <;> simp [hh, h]
  · intro h
    by_cases hh : w.runIsHTML
    · simp [hh] at h
    · by_cases hs : w.runStatus = 200
      · exact ⟨hs, by simpa using hh⟩
      · simp [hh, hs] at h

/-- C6 witness: an HTML 200 response fails, a plain 503 fails, and the
benign world's classification being success is consistent with its
status/content type. -/
theorem run_response_classification_witness :
    classifyRunResponse { sampleWorld with runIsHTML := true } = .err .failTestRun ∧
    classifyRunResponse { sampleWorld with runStatus := 503 } = .err .failTestRun ∧
    ({ sampleWorld with runIsHTML := true : World }.runStatus = 200 ∧
      sampleWorld.runStatus = 200) :=
  ⟨(run_response_classification _ rfl).1 rfl,
   (run_response_classification { sampleWorld with runStatus := 503 } rfl).2.1 (by decide),
   rfl, rfl⟩

/-- C8: after resolution, an empty test URL fails with the no-test-URL
error, and a non-empty URL rejected by the syntactic validator fails
with the distinct not-a-valid-URL error; in both cases the emitted
action list is empty, so no test-run request is issued. -/
theorem url_checks_before_run (w : World) (s : TestSpec) :
    (s.testURL = "" → finishRun w s = (.err .noTestURL, [])) ∧
    (s.testURL ≠ "" → w.isURL s.testURL = false →
      finishRun w s = (.err .notValidURL, [])) := by
  constructor
  · intro h
    simp [finishRun, h]
  · intro h h2
    simp [finishRun, h, h2]

/-- C8 witness: the two failure branches at concrete inputs. -/
theorem url_checks_before_run_witness :
    finishRun sampleWorld { flaggedSpec with testURL := "" } = (.err .noTestURL, []) ∧
    finishRun { sampleWorld with isURL := fun _ => false } flaggedSpec =
      (.err .notValidURL, []) :=
  ⟨(url_checks_before_run sampleWorld { flaggedSpec with testURL := "" }).1 rfl,
   (url_checks_before_run { sampleWorld with isURL := fun _ => false } flaggedSpec).2
     (by decide) rfl⟩

/-- C5: when creation is reached with a profile name and a valid test
URL and every other field empty, the creation request body carries
exactly the defaults: concurrency 1, duration 30s, load generator
fortio, QPS 0, service mesh None. -/
theorem create_profile_defaults (w : World) (s : TestSpec)
    (hn : s.profileName ≠ "") (hu : s.testURL ≠ "")
    (hv : w.isURL s.testURL = true)
    (hm : s.testMesh = "") (hq : s.qps = "") (hc : s.concurrentRequests = "")
    (hd : s.testDuration = "") (hl : s.loadGenerator = "") :
    (createPerformanceProfile w s).2 =
      [NetAction.createProfile
        { concurrent_request := 1
          duration := "30s"
          endpoints := [s.testURL]
          load_generators := ["fortio"]
          name := s.profileName
          qps := 0
          service_mesh := "None" }] := by
  unfold createPerformanceProfile buildCreateBody applyCreateDefaults
  simp [hn, hu, hv, hm, hq, hc, hd, hl, goAtoi_one, goAtoi_zero]

/-- C5 witness: the defaults at a spec holding only a name and a URL. -/
theorem create_profile_defaults_witness :
    (createPerformanceProfile sampleWorld minimalSpec).2 =
      [NetAction.createProfile
        { concurrent_request := 1
          duration := "30s"
          endpoints := ["https://flag.example"]
          load_generators := ["fortio"]
          name := "perf-test"
          qps := 0
          service_mesh := "None" }] :=
  create_profile_defaults sampleWorld minimalSpec (by decide) (by decide) rfl
    rfl rfl rfl rfl rfl

/-- Shared helper: full characterization of a successful file merge. -/
theorem mergeFile_keeps_flags (mtn : Int → String) (cfg : TestConfig)
    (sm : ServiceMeshDesc) (tc : TestClient) (tcs : List TestClient)
    (s : TestSpec) (hc : cfg.clients = tc :: tcs)
    (hurl : s.testURL ≠ "" ∨ tc.endpointUrls ≠ []) :
    ∃ s2, mergeFile mtn ⟨some cfg, some sm⟩ s = .ok s2 ∧
      s2.testName = (if s.testName = "" then cfg.name else s.testName) ∧
      (s.testURL ≠ "" → s2.testURL = s.testURL) ∧
      (∀ u us, s.testURL = "" → tc.endpointUrls = u :: us → s2.testURL = u) ∧
      s2.testMesh = (if s.testMesh = "" then mtn sm.type else s.testMesh) ∧
      s2.qps = (if s.qps = "" then toString tc.rps else s.qps) ∧
      s2.concurrentRequests =
        (if s.concurrentRequests = "" then toString tc.connections
         else s.concurrentRequests) ∧
      s2.testDuration = (if s.testDuration = "" then cfg.duration else s.testDuration) ∧
      s2.loadGenerator =
        (if s.loadGenerator = "" then tc.loadGenerator else s.loadGenerator) := by
  obtain ⟨nm, dur, cls⟩ := cfg
  simp only at hc
  subst hc
  by_cases hu : s.testURL = ""
  · obtain ⟨u, us, hus⟩ : ∃ u us, tc.endpointUrls = u :: us := by
      rcases hurl with h | h
      · exact absurd hu h
      · cases h1 : tc.endpointUrls with
        | nil => exact absurd h1 h
        | cons a l => exact ⟨a, l, rfl⟩
    refine ⟨_, by simp only [mergeFile]; simp [hu, hus]; try rfl, ?_, ?_, ?_, ?_, ?_, ?_, ?_, ?_⟩ <;>
      simp [hu, hus]
  · refine ⟨_, by simp only [mergeFile]; simp [hu]; try rfl, ?_, ?_, ?_, ?_, ?_, ?_, ?_, ?_⟩ <;>
      simp [hu]

/-- C2: with a configuration file supplied (both sections present, first
client block available), the merged spec keeps each non-empty flag value
and otherwise takes the file's corresponding value: test name from the
config name, test URL from the first client's first endpoint, mesh name
from the mesh-type display name, QPS and concurrent-requests stringified
from the first client's rps/connections, duration from the config
duration, load generator from the first client. -/
theorem merge_flag_over_file (mtn : Int → String) (cfg : TestConfig)
    (sm : ServiceMeshDesc) (tc : TestClient) (tcs : List TestClient)
    (s : TestSpec) (hc : cfg.clients = tc :: tcs)
    (hurl : s.testURL ≠ "" ∨ tc.endpointUrls ≠ []) :
    ∃ s2, mergeFile mtn ⟨some cfg, some sm⟩ s = .ok s2 ∧
      s2.testName = (if s.testName = "" then cfg.name else s.testName) ∧
      (s.testURL ≠ "" → s2.testURL = s.testURL) ∧
      (∀ u us, s.testURL = "" → tc.endpointUrls = u :: us → s2.testURL = u) ∧
      s2.testMesh = (if s.testMesh = "" then mtn sm.type else s.testMesh) ∧
      s2.qps = (if s.qps = "" then toString tc.rps else s.qps) ∧
      s2.concurrentRequests =
        (if s.concurrentRequests = "" then toString tc.connections
         else s.concurrentRequests) ∧
      s2.testDuration = (if s.testDuration = "" then cfg.duration else s.testDuration) ∧
      s2.loadGenerator =
        (if s.loadGenerator = "" then tc.loadGenerator else s.loadGenerator) :=
  mergeFile_keeps_flags mtn cfg sm tc tcs s hc hurl

/-- C2 witness: a fully flagged command line merged against the sample
file keeps every flag value. -/
theorem merge_flag_over_file_witness :
    ∃ s2, mergeFile (fun _ => "istio") file2m flaggedSpec = .ok s2 ∧
      s2.testName = "mytest" ∧
      ("mytest" ≠ "" → s2.testURL = "https://flag.example") ∧
      (∀ u us, "https://flag.example" = "" →
        [("https://file.example" : String)] = u :: us → s2.testURL = u) ∧
      s2.testMesh = "linkerd" ∧
      s2.qps = "100" ∧
      s2.concurrentRequests = "9" ∧
      s2.testDuration = "1h" ∧
      s2.loadGenerator = "fortio" := by
  have h := merge_flag_over_file (fun _ => "istio")
    { name := "smp-test", duration := "2m",
      clients := [{ endpointUrls := ["https://file.example"], rps := 10,
                    connections := 4, loadGenerator := "fortio" }] }
    { type := 3 }
    { endpointUrls := ["https://file.example"], rps := 10, connections := 4,
      loadGenerator := "fortio" } [] flaggedSpec rfl (Or.inl (by decide))
  obtain ⟨s2, h1, h2, h3, h4, h5, h6, h7, h8, h9⟩ := h
  refine ⟨s2, h1, h2, ?_, ?_, h5, h6, h7, h8, h9⟩
  · intro h0
    exact h3 (by decide)
  · intro u us h0
    exact absurd h0 (by decide)

/-- C9: the file-validation check accepts a file whose clients list is
empty — the result is the out-of-range read of the first client block (a
crash), not the invalid-test-config-file error; with a first client but
no endpoint and no URL flag the first-endpoint read crashes likewise;
and when a first client exists and either a URL flag was given or the
first client has an endpoint, the merge is total. -/
theorem clients_head_unchecked :
    (∀ (mtn : Int → String) (cfg : TestConfig) (sm : ServiceMeshDesc) (s : TestSpec),
      cfg.clients = [] →
        mergeFile mtn ⟨some cfg, some sm⟩ s = .crash ∧
        mergeFile mtn ⟨some cfg, some sm⟩ s ≠ .err .invalidTestConfigFile) ∧
    (∀ (mtn : Int → String) (cfg : TestConfig) (sm : ServiceMeshDesc) (s : TestSpec)
        (tc : TestClient) (tcs : List TestClient),
      cfg.clients = tc :: tcs → s.testURL = "" → tc.endpointUrls = [] →
        mergeFile mtn ⟨some cfg, some sm⟩ s = .crash) ∧
    (∀ (mtn : Int → String) (cfg : TestConfig) (sm : ServiceMeshDesc) (s : TestSpec)
        (tc : TestClient) (tcs : List TestClient),
      cfg.clients = tc :: tcs → (s.testURL ≠ "" ∨ tc.endpointUrls ≠ []) →
        ∃ s2, mergeFile mtn ⟨some cfg, some sm⟩ s = .ok s2) := by
  refine ⟨?_, ?_, ?_⟩
  · intro mtn cfg sm s h
    obtain ⟨nm, dur, cls⟩ := cfg
    simp only at h
    subst h
    exact ⟨rfl, by simp [mergeFile]⟩
  · intro mtn cfg sm s tc tcs hc hu he
    obtain ⟨nm, dur, cls⟩ := cfg
    simp only at hc
    subst hc
    simp [mergeFile, hu, he]
  · intro mtn cfg sm s tc tcs hc hurl
    obtain ⟨s2, h1, _⟩ := mergeFile_keeps_flags mtn cfg sm tc tcs s hc hurl
    exact ⟨s2, h1⟩

/-- C9 witness: an empty-clients file crashes rather than failing
validation, an endpointless client with no URL flag crashes, and the
sample file merges totally against an unflagged command line. -/
theorem clients_head_unchecked_witness :
    (mergeFile (fun _ => "istio")
        ⟨some { name := "n", duration := "2m", clients := [] }, some { type := 3 }⟩
        (initSpec bareInput) = .crash ∧
      mergeFile (fun _ => "istio")
        ⟨some { name := "n", duration := "2m", clients := [] }, some { type := 3 }⟩
        (initSpec bareInput) ≠ .err .invalidTestConfigFile) ∧
    mergeFile (fun _ => "istio")
      ⟨some { name := "n", duration := "2m",
              clients := [{ endpointUrls := [], rps := 1, connections := 1,
                            loadGenerator := "fortio" }] },
       some { type := 3 }⟩
      (initSpec bareInput) = .crash ∧
    (∃ s2, mergeFile (fun _ => "istio") file2m (initSpec bareInput) = .ok s2) :=
  ⟨clients_head_unchecked.1 (fun _ => "istio")
      { name := "n", duration := "2m", clients := [] } { type := 3 }
      (initSpec bareInput) rfl,
   clients_head_unchecked.2.1 (fun _ => "istio")
      { name := "n", duration := "2m",
        clients := [{ endpointUrls := [], rps := 1, connections := 1,
                      loadGenerator := "fortio" }] }
      { type := 3 } (initSpec bareInput)
      { endpointUrls := [], rps := 1, connections := 1, loadGenerator := "fortio" }
      [] rfl rfl rfl,
   clients_head_unchecked.2.2 (fun _ => "istio")
      { name := "smp-test", duration := "2m",
        clients := [{ endpointUrls := ["https://file.example"], rps := 10,
                      connections := 4, loadGenerator := "fortio" }] }
      { type := 3 } (initSpec bareInput)
      { endpointUrls := ["https://file.example"], rps := 10, connections := 4,
        loadGenerator := "fortio" }
      [] rfl (Or.inr (by decide))⟩

/-- C1: when exactly one profile matches and no configuration file was
supplied, resolution overwrites the spec's profile name, load generator
(first entry), concurrent-requests, QPS, duration and service-mesh name
with the matched profile's stored values, whatever flag values the user
supplied for those fields. -/
theorem single_match_overrides_flags (w : World) (p : PerformanceProfile)
    (s : TestSpec) (lg : String) (lgs : List String)
    (hfetch : w.fetchResult = some [p])
    (hlg : p.loadGenerators = lg :: lgs)
    (hurl : s.testURL ≠ "" ∨ p.endpoints ≠ []) :
    ∃ s2, resolveStep w true s = (.ok s2, []) ∧
      s2.profileName = p.name ∧
      s2.loadGenerator = lg ∧
      s2.concurrentRequests = toString p.concurrentRequest ∧
      s2.qps = toString p.qps ∧
      s2.testDuration = p.duration ∧
      s2.testMesh = p.serviceMesh := by
  unfold resolveStep
  rw [hfetch]
  by_cases hu : s.testURL = ""
  · obtain ⟨u, us, hus⟩ : ∃ u us, p.endpoints = u :: us := by
      rcases hurl with h | h
      · exact absurd hu h
      · cases h1 : p.endpoints with
        | nil => exact absurd h1 h
        | cons a l => exact ⟨a, l, rfl⟩
    refine ⟨_, by simp [pickProfileIndex, adoptProfile, adoptURL,
      overwriteFromProfile, hu, hus, hlg]; try rfl, ?_, ?_, ?_, ?_, ?_, ?_⟩ <;>
      simp [pickProfileIndex, adoptProfile, adoptURL, overwriteFromProfile, hu, hus, hlg]
  · refine ⟨_, by simp [pickProfileIndex, adoptProfile, adoptURL,
      overwriteFromProfile, hu, hlg]; try rfl, ?_, ?_, ?_, ?_, ?_, ?_⟩ <;>
      simp [pickProfileIndex, adoptProfile, adoptURL, overwriteFromProfile, hu, hlg]

/-- C1 witness: the sample profile's stored values displace a fully
flagged spec. -/
theorem single_match_overrides_flags_witness :
    ∃ s2, resolveStep sampleWorld true flaggedSpec = (.ok s2, []) ∧
      s2.profileName = "perf-test" ∧
      s2.loadGenerator = "wrk2" ∧
      s2.concurrentRequests = "5" ∧
      s2.qps = "7" ∧
      s2.testDuration = "15s" ∧
      s2.testMesh = "istio" :=
  single_match_overrides_flags sampleWorld sampleProfile flaggedSpec "wrk2" []
    rfl rfl (Or.inl (by decide))

/-- Creation-response classification never touches the test name. -/
theorem classify_preserves_testName (w : World) (s1 s2 : TestSpec)
    (h : classifyCreateResponse w s1 = .ok s2) : s2.testName = s1.testName := by
  unfold classifyCreateResponse at h
  repeat' split at h
  all_goals try exact Outcome.noConfusion h
  all_goals rw [Outcome.ok.injEq] at h
  all_goals subst h
  all_goals rfl

/-- Profile creation never touches the test name. -/
theorem create_preserves_testName (w : World) (s s2 : TestSpec)
    (acts : List NetAction)
    (h : createPerformanceProfile w s = (.ok s2, acts)) :
    s2.testName = s.testName := by
  unfold createPerformanceProfile at h
  repeat' split at h
  all_goals try exact Outcome.noConfusion (congrArg Prod.fst h)
  all_goals rw [Prod.mk.injEq] at h
  all_goals rw [classify_preserves_testName w _ s2 h.1]
  all_goals rfl

/-- Adopting a matched profile never touches the test name. -/
theorem adopt_preserves_testName (fa : Bool) (prof : PerformanceProfile)
    (s s2 : TestSpec) (h : adoptProfile fa prof s = .ok s2) :
    s2.testName = s.testName := by
  unfold adoptProfile overwriteFromProfile at h
  repeat' split at h
  all_goals try exact Outcome.noConfusion h
  all_goals rw [Outcome.ok.injEq] at h
  all_goals subst h
  all_goals rfl

/-- The run query's `name` parameter is the spec's test name. -/
theorem buildRunQuery_name (s : TestSpec) (q : RunQuery)
    (h : buildRunQuery s = .ok q) : q.name = s.testName := by
  unfold buildRunQuery at h
  split at h
  · simp at h
  · rw [Outcome.ok.injEq] at h
    rw [← h]

/-- C10: profile resolution never changes the test name (in every branch
that returns normally, including creation and the overwrite-from-profile
branch), the emitted run request's `name` parameter equals the spec's
test name, and the test name entering resolution is the flag/file value
or, when that is empty, the random replacement. -/
theorem testName_frame :
    (∀ (w : World) (fa : Bool) (s s2 : TestSpec) (acts : List NetAction),
      resolveStep w fa s = (.ok s2, acts) → s2.testName = s.testName) ∧
    (∀ (w : World) (s : TestSpec) (r : Outcome Unit) (acts : List NetAction)
        (q : RunQuery),
      finishRun w s = (r, acts) → NetAction.runTest q ∈ acts →
        q.name = s.testName) ∧
    (∀ (rand : String) (s : TestSpec),
      (ensureTestName rand s).testName =
        if s.testName = "" then rand else s.testName) := by
  refine ⟨?_, ?_, ?_⟩
  · intro w fa s s2 acts h
    unfold resolveStep at h
    repeat' split at h
    all_goals try exact Outcome.noConfusion (congrArg Prod.fst h)
    all_goals first
      | exact create_preserves_testName w s s2 _ h
      | (rw [Prod.mk.injEq] at h
         exact adopt_preserves_testName _ _ s s2 h.1)
  · intro w s r acts q h hq
    unfold finishRun at h
    repeat' split at h
    all_goals rw [Prod.mk.injEq] at h
    all_goals rw [← h.2] at hq
    all_goals simp at hq
    rename_i q0 hq0
    rw [hq]
    exact buildRunQuery_name s q0 hq0
  · intro rand s
    unfold ensureTestName
    split <;> simp_all

/-- C10 witness: resolving the single sample match against the flagged
spec keeps the test name, and the random name replaces only an empty
test name. -/
theorem testName_frame_witness :
    (resolveStep sampleWorld true flaggedSpec =
        (.ok { flaggedSpec with
          profileName := "perf-test", profileID := "0001",
          loadGenerator := "wrk2", concurrentRequests := "5", qps := "7",
          testDuration := "15s", testMesh := "istio" }, []) →
      ({ flaggedSpec with
          profileName := "perf-test", profileID := "0001",
          loadGenerator := "wrk2", concurrentRequests := "5", qps := "7",
          testDuration := "15s", testMesh := "istio" : TestSpec }).testName =
        flaggedSpec.testName) ∧
    (ensureTestName "qwertyui" (initSpec bareInput)).testName =
      (if (initSpec bareInput).testName = "" then "qwertyui"
       else (initSpec bareInput).testName) :=
  ⟨testName_frame.1 sampleWorld true flaggedSpec _ [],
   testName_frame.2.2 "qwertyui" (initSpec bareInput)⟩

/-- C7: with zero matching profiles, declining creation (silent mode
off) fails with the no-profile-found error after only the profile fetch
— no profile-creation request and no test-run request is issued; with
silent mode on, resolution proceeds exactly as a confirmed creation,
consulting no user answer. -/
theorem decline_no_mutation (w : World) (c : CmdInput) (s0 : TestSpec)
    (hcfg : w.mesheryConfigOk = true)
    (hfile : fileStep w.meshTypeName c.file (initSpec c) = .ok s0)
    (hargs : c.args ≠ [])
    (hfetch : w.fetchResult = some []) :
    (w.silentFlag = false → w.userConfirm = false →
      applyRunE w c =
        (.err .noProfileFound,
         [NetAction.fetchProfiles (profileNameOfArgs c.args)]) ∧
      (∀ b, NetAction.createProfile b ∉ (applyRunE w c).2) ∧
      (∀ q, NetAction.runTest q ∉ (applyRunE w c).2)) ∧
    (w.silentFlag = true →
      ∀ s, resolveStep w c.file.isNone s = createPerformanceProfile w s) := by
  constructor
  · intro hs hc2
    have hres : applyRunE w c =
        (.err .noProfileFound,
         [NetAction.fetchProfiles (profileNameOfArgs c.args)]) := by
      unfold applyRunE resolveStep
      rw [hcfg, hfile, hfetch, hs, hc2]
      simp [hargs]
    refine ⟨hres, ?_, ?_⟩ <;> intro x <;> rw [hres] <;> simp
  · intro hs s
    unfold resolveStep
    rw [hfetch, hs]
    rfl

/-- C7 witness: the concrete decline run and the silent-mode identity. -/
theorem decline_no_mutation_witness :
    applyRunE { sampleWorld with fetchResult := some [] } bareInput =
      (.err .noProfileFound, [NetAction.fetchProfiles "stored"]) ∧
    resolveStep { sampleWorld with fetchResult := some [], silentFlag := true }
        true minimalSpec =
      createPerformanceProfile
        { sampleWorld with fetchResult := some [], silentFlag := true }
        minimalSpec :=
  ⟨((decline_no_mutation { sampleWorld with fetchResult := some [] } bareInput
      (initSpec bareInput) rfl rfl (by decide) rfl).1 rfl rfl).1,
   (decline_no_mutation
      { sampleWorld with fetchResult := some [], silentFlag := true } bareInput
      (initSpec bareInput) rfl rfl (by decide) rfl).2 rfl minimalSpec⟩

/-- C4 (safety of the duration decomposition): the claim fails on the
code. A stored profile whose duration string is empty reaches
run-request construction (no file, no duration flag: the match branch
copies the profile's empty duration into the spec), where
`testDuration[durLen-1]` indexes position `-1` — an out-of-range Go
panic, not a returned error. -/
theorem empty_duration_reaches_crash :
    applyRunE { sampleWorld with fetchResult := some [emptyDurationProfile] }
      bareInput = (.crash, [NetAction.fetchProfiles "stored"]) := by
  rfl
